import Mathlib

/-!
# Verification of `simple-github` (mozilla-releng/simple-github)

Shallow embedding of the library's core modules, translated from the Python
source:

* `simple_github/util/rate_limit.py` — rate-limit classifier and backoff policy
* `simple_github/auth.py` — credential variants and their token caches
  (async generators, modelled as explicit state machines with a `dead` state
  for an exhausted generator)
* `simple_github/client.py` — token-reactive session cache and request
  construction for the sync and async clients

Machine times (`int(time.time())`) are passed explicitly as an integer `now`;
each embedded call uses a single timestamp, modelling the fact that the clock
does not advance during one call. Network and signing collaborators are
passed as explicit oracles so that theorems can quantify over their outcomes.
-/

namespace SimpleGithub

/-- Python exception kinds that the embedded code can raise. -/
inductive PyError where
  | valueError
  | attributeError
  | typeError
  | httpError
  | notInstalled
  | signError
  | assertionError
  | stopAsyncIteration
  deriving DecidableEq, Repr

/-- JSON values, as decoded by `resp.json()` / produced for `json.dumps`.
Objects keep insertion order, as Python dicts do. -/
inductive Json where
  | null : Json
  | bool : Bool → Json
  | num : Int → Json
  | str : String → Json
  | arr : List Json → Json
  | obj : List (String × Json) → Json

/-- An HTTP response as the rate-limit module sees it: status code, header
map, and the decoded JSON body (`none` models a body on which `resp.json()`
raises `ValueError`). Header keys are taken lowercase, matching the
case-insensitive header dicts of `requests`/`aiohttp` and the lowercase
names used by the source. -/
structure PyResponse where
  status_code : Nat
  headers : List (String × String)
  body : Option Json

/-- `headers.get(k)`: first binding for the key, if any. -/
def headersGet (hs : List (String × String)) (k : String) : Option String :=
  (hs.find? (fun p => p.1 == k)).map (fun p => p.2)

/-- Python truthiness of a string: non-empty. -/
def pyTruthyStr (s : String) : Bool := !(s == "")

/-- Python truthiness of `headers.get(k)` (an `Optional[str]`): present and
non-empty. -/
def pyTruthyOptStr (o : Option String) : Bool :=
  match o with
  | some s => pyTruthyStr s
  | none => false

/-- `sub` occurs as a contiguous run somewhere in `l`. -/
def charsContain (sub : List Char) : List Char → Bool
  | [] => sub.isEmpty
  | c :: cs => sub.isPrefixOf (c :: cs) || charsContain sub cs

/-- `sub in s` on Python strings: substring test. -/
def strContains (s sub : String) : Bool :=
  charsContain sub.data s.data

/-- Assoc-list field lookup in a JSON object (Python `dict` access). -/
def lookupField (fields : List (String × Json)) (k : String) : Option Json :=
  (fields.find? (fun p => p.1 == k)).map (fun p => p.2)

/-- Python `v == "lit"` where `v` came out of a dict: true only when the
value is that exact string. -/
def isStrEq (v : Option Json) (s : String) : Bool :=
  match v with
  | some (Json.str t) => t == s
  | _ => false

/-- One iteration of the `for error in errors` loop body of
`is_rate_limited` (rate_limit.py lines 26-32): the three-way disjunction
`error.get("type") == "RATE_LIMITED" or
 error.get("extensions", {}).get("code") == "RATE_LIMITED" or
 "rate limit" in error.get("message", "").lower()`,
with Python's left-to-right short-circuit evaluation, raising
`AttributeError` where a non-dict meets `.get` or a non-string meets
`.lower()`. -/
def rlErrorMatch (e : Json) : Except PyError Bool :=
  match e with
  | Json.obj fields =>
    if isStrEq (lookupField fields "type") "RATE_LIMITED" then Except.ok true
    else
      match (lookupField fields "extensions").getD (Json.obj []) with
      | Json.obj efields =>
        if isStrEq (lookupField efields "code") "RATE_LIMITED" then Except.ok true
        else
          match (lookupField fields "message").getD (Json.str "") with
          | Json.str m => Except.ok (strContains m.toLower "rate limit")
          | _ => Except.error PyError.attributeError
      | _ => Except.error PyError.attributeError
  | _ => Except.error PyError.attributeError

/-- The `for error in errors: if ...: return True` loop: first match wins,
exceptions propagate. -/
def anyRlError : List Json → Except PyError Bool
  | [] => Except.ok false
  | e :: rest =>
    match rlErrorMatch e with
    | Except.ok true => Except.ok true
    | Except.ok false => anyRlError rest
    | Except.error err => Except.error err

/-- `data.get("message", "").lower()` (rate_limit.py line 42): raises
`AttributeError` when `data` is not a dict or the message is not a string;
`ValueError` never comes from this line. -/
def pyGetMessageLower (data : Json) : Except PyError String :=
  match data with
  | Json.obj fields =>
    match (lookupField fields "message").getD (Json.str "") with
    | Json.str s => Except.ok s.toLower
    | _ => Except.error PyError.attributeError
  | _ => Except.error PyError.attributeError

/-- `is_rate_limited` (rate_limit.py lines 6-48), translated
statement-by-statement.

In the REST branch, the body test on line 43 reads
`if "rate limit exceeded" or "too many requests" in message:` which Python
parses as `("rate limit exceeded") or ("too many requests" in message)`; the
left operand is a non-empty string literal and hence truthy, so the branch
is taken whenever the line is reached. The translation keeps that exact
shape. The `except ValueError: pass` around lines 41-44 is modelled by
mapping a `body` of `none` to the plain fall-through `return False`; an
`AttributeError` from line 42 is not caught and propagates. -/
def is_rate_limited (resp : PyResponse) : Except PyError Bool :=
  let resource := headersGet resp.headers "x-ratelimit-resource"
  if resource = some "graphql" then
    if resp.status_code = 200 ∨ resp.status_code = 403 then
      match resp.body with
      | none => Except.error PyError.valueError
      | some data =>
        match data with
        | Json.obj fields =>
          match (lookupField fields "errors").getD (Json.arr []) with
          | Json.arr errors =>
            match anyRlError errors with
            | Except.ok true => Except.ok true
            | Except.ok false => Except.ok false
            | Except.error err => Except.error err
          | _ => Except.error PyError.typeError
        | _ => Except.error PyError.attributeError
    else Except.ok false
  else if resp.status_code = 403 ∨ resp.status_code = 429 then
    if headersGet resp.headers "x-ratelimit-remaining" = some "0"
        ∨ pyTruthyOptStr (headersGet resp.headers "retry-after") = true then
      Except.ok true
    else
      match resp.body with
      | none => Except.ok false
      | some data =>
        match pyGetMessageLower data with
        | Except.error err => Except.error err
        | Except.ok message =>
          if pyTruthyStr "rate limit exceeded" || strContains message "too many requests" then
            Except.ok true
          else Except.ok false
  else Except.ok false

/-- Value of one decimal digit character. -/
def charDigit (c : Char) : Option Nat :=
  if c.isDigit then some (c.toNat - 48) else none

/-- Accumulate further decimal digits onto `acc`; fail on a non-digit. -/
def digitsCore (acc : Nat) : List Char → Option Nat
  | [] => some acc
  | c :: cs =>
    match charDigit c with
    | some d => digitsCore (10 * acc + d) cs
    | none => none

/-- Value of a non-empty all-digit character list. -/
def digitsVal : List Char → Option Nat
  | [] => none
  | c :: cs =>
    match charDigit c with
    | some d => digitsCore d cs
    | none => none

/-- Python `int(s)` on a header string: a decimal integer with an optional
leading minus sign, raising `ValueError` otherwise. -/
def pyInt (s : String) : Except PyError Int :=
  match s.data with
  | '-' :: cs =>
    match digitsVal cs with
    | some n => Except.ok (-(n : Int))
    | none => Except.error PyError.valueError
  | cs =>
    match digitsVal cs with
    | some n => Except.ok ((n : Int))
    | none => Except.error PyError.valueError

/-- `get_wait_time` (rate_limit.py lines 51-82). `now` is `int(time())`. -/
def get_wait_time (resp : PyResponse) (attempt : Int) (now : Int) : Except PyError Int :=
  let attempt := max attempt 1
  let remaining := headersGet resp.headers "x-ratelimit-remaining"
  let reset := headersGet resp.headers "x-ratelimit-reset"
  let retry_after := headersGet resp.headers "retry-after"
  if remaining = some "0" ∧ pyTruthyOptStr reset = true then
    match reset with
    | some r =>
      match pyInt r with
      | Except.ok n => Except.ok (max 0 (n - now))
      | Except.error err => Except.error err
    | none => Except.error PyError.valueError
  else if pyTruthyOptStr retry_after = true then
    match retry_after with
    | some r =>
      match pyInt r with
      | Except.ok n => Except.ok n
      | Except.error err => Except.error err
    | none => Except.error PyError.valueError
  else Except.ok (60 + 20 * (attempt - 1))

/-! ## auth.py — credential variants

`AppAuth` and `AppInstallationAuth` cache their tokens in async generators
(`_gen_jwt`, `_gen_installation_token`); `get_token` is
`await anext(self._generator)`. A Python generator whose body raises an
exception propagates it and is thereafter exhausted: every later `anext`
raises `StopAsyncIteration`. Each generator is therefore embedded as a step
function on an explicit state: `start` (generator created, body not yet
run), `primed` (body is suspended at `yield` holding its locals), and
`dead` (body has exited via an exception). Oracles for the signing and
network collaborators are passed in explicitly. -/

/-- `PublicAuth.get_token` (auth.py lines 29-30). -/
def publicAuthGetToken : String := ""

/-- `TokenAuth.get_token` (auth.py lines 42-48). -/
def tokenAuthGetToken (token : String) : String := token

/-- The JWT claims dict built by `AppAuth._gen_jwt` (auth.py lines 75-79).
`jwt.encode` with a fixed key is a deterministic function of the payload,
so the signing collaborator is an oracle `JwtPayload → Except Unit String`. -/
structure JwtPayload where
  iat : Int
  exp : Int
  iss : Int
  deriving DecidableEq, Repr

/-- State of the `AppAuth._gen_jwt` async generator. -/
inductive AppAuthGenState where
  | start
  | primed (payload : JwtPayload) (token : String)
  | dead
  deriving DecidableEq, Repr

/-- One `get_token` call on `AppAuth` (auth.py lines 64-100): advances the
`_gen_jwt` generator to its next `yield`. `now` is `int(time.time())`;
within one call the clock is read as a single value. On the first call the
body mints a token with `iat = now`, `exp = now + 540` and reaches the
`while` loop, whose check `exp - now < 60` is `540 < 60` and fails, so the
fresh token is yielded. On later calls the loop resumes: if
`exp - now < 60` the payload is mutated to the new window and re-signed. A
signing failure propagates out of the generator body, leaving the
generator exhausted (`dead`); from `dead`, `anext` raises
`StopAsyncIteration`. -/
def appAuthGetToken (sign : JwtPayload → Except Unit String) (appId : Int)
    (s : AppAuthGenState) (now : Int) : Except PyError String × AppAuthGenState :=
  match s with
  | AppAuthGenState.start =>
    let payload : JwtPayload := { iat := now, exp := now + 540, iss := appId }
    match sign payload with
    | Except.error _ => (Except.error PyError.signError, AppAuthGenState.dead)
    | Except.ok token => (Except.ok token, AppAuthGenState.primed payload token)
  | AppAuthGenState.primed payload token =>
    if payload.exp - now < 60 then
      let payload2 : JwtPayload := { payload with iat := now, exp := now + 540 }
      match sign payload2 with
      | Except.error _ => (Except.error PyError.signError, AppAuthGenState.dead)
      | Except.ok token2 => (Except.ok token2, AppAuthGenState.primed payload2 token2)
    else (Except.ok token, AppAuthGenState.primed payload token)
  | AppAuthGenState.dead => (Except.error PyError.stopAsyncIteration, AppAuthGenState.dead)

/-- Python truthiness of the `Optional[List[str]]` field
`self.repositories`: `None` and `[]` are falsy. -/
def pyTruthyOptList (o : Option (List String)) : Bool :=
  match o with
  | some l => !l.isEmpty
  | none => false

/-- The mint request body built by `_gen_installation_token` (auth.py lines
170-173): `data = {}` then `if self.repositories: data["repositories"] =
self.repositories`. -/
def mintRequestBody (repositories : Option (List String)) : List (String × Json) :=
  if pyTruthyOptList repositories = true then
    [("repositories", Json.arr ((repositories.getD []).map Json.str))]
  else []

/-- Network oracle for `AppInstallationAuth`: the decoded result of
`GET /app/installations` as (account login, installation id) pairs (an
error models an HTTP failure raised by `raise_for_status`), and the result
of the `POST .../access_tokens` mint as a function of the time it is
issued. -/
structure InstEnv where
  listInstallations : Except Unit (List (String × String))
  mint : Int → Except Unit String

/-- The scan loop of `_get_installation_id` (auth.py lines 144-150): first
installation whose account login equals `owner`, else the "not installed"
exception. -/
def findInstallationId (owner : String) : List (String × String) → Except PyError String
  | [] => Except.error PyError.notInstalled
  | (login, instId) :: rest =>
    if login == owner then Except.ok instId else findInstallationId owner rest

/-- Network calls issued by one step of the installation-token generator. -/
inductive NetCall where
  | lookupInstallations
  | mintToken (installationId : String) (body : List (String × Json))

/-- State of the `AppInstallationAuth._gen_installation_token` generator. -/
inductive InstGenState where
  | start
  | primed (installationId : String) (token : String) (exp : Int)
  | dead

/-- One `get_token` call on `AppInstallationAuth` (auth.py lines 152-199):
advances `_gen_installation_token` to its next `yield`, returning the
yielded token (or raised error), the new generator state, and the network
calls issued. On the first call the body resolves the installation id
(`_get_installation_id`), builds the request body once, mints a token, sets
`exp = now + 3600`, and reaches the loop check `exp - now < 60`, which is
`3600 < 60` and fails, so the token is yielded. Later calls resume the
loop: a cached token is returned untouched while `exp - now >= 60`,
otherwise only the mint is repeated (the installation id and body are
locals fixed before the loop). Any exception (HTTP failure from
`raise_for_status`, missing installation) propagates and exhausts the
generator; from `dead`, `anext` raises `StopAsyncIteration` without
touching the network. -/
def instGetToken (env : InstEnv) (owner : String) (repositories : Option (List String))
    (s : InstGenState) (now : Int) : Except PyError String × InstGenState × List NetCall :=
  match s with
  | InstGenState.start =>
    match env.listInstallations with
    | Except.error _ =>
      (Except.error PyError.httpError, InstGenState.dead, [NetCall.lookupInstallations])
    | Except.ok insts =>
      match findInstallationId owner insts with
      | Except.error e => (Except.error e, InstGenState.dead, [NetCall.lookupInstallations])
      | Except.ok instId =>
        let body := mintRequestBody repositories
        match env.mint now with
        | Except.error _ =>
          (Except.error PyError.httpError, InstGenState.dead,
            [NetCall.lookupInstallations, NetCall.mintToken instId body])
        | Except.ok token =>
          (Except.ok token, InstGenState.primed instId token (now + 3600),
            [NetCall.lookupInstallations, NetCall.mintToken instId body])
  | InstGenState.primed instId token exp =>
    if exp - now < 60 then
      match env.mint now with
      | Except.error _ =>
        (Except.error PyError.httpError, InstGenState.dead,
          [NetCall.mintToken instId (mintRequestBody repositories)])
      | Except.ok token2 =>
        (Except.ok token2, InstGenState.primed instId token2 (now + 3600),
          [NetCall.mintToken instId (mintRequestBody repositories)])
    else (Except.ok token, InstGenState.primed instId token exp, [])
  | InstGenState.dead => (Except.error PyError.stopAsyncIteration, InstGenState.dead, [])

/-! ## client.py — token-reactive session cache and request construction

`SyncClient` and `AsyncClient` are embedded separately, mirroring their
separate (near-duplicate) method bodies in the source, so that their
behavioural equality is a theorem rather than an artefact of sharing one
definition. The gql client/session pair created by `connect_sync` /
`connect_async` is modelled as a `GqlSession` record carrying the default
headers its transport was built with and the token it is bound to; the
mutable fields `_prev_token` and `_gql_session` of `Client` form the
`SessionState`. -/

/-- `GITHUB_API_ENDPOINT` (client.py line 18). -/
def GITHUB_API_ENDPOINT : String := "https://api.github.com"

/-- `GITHUB_GRAPHQL_ENDPOINT` (client.py line 19). -/
def GITHUB_GRAPHQL_ENDPOINT : String := "https://api.github.com/graphql"

/-- The transport/session pair built for one token: the token it was
constructed from and the default headers configured on the transport. -/
structure GqlSession where
  token : String
  headers : List (String × String)
  deriving DecidableEq, Repr

/-- The mutable session-cache fields of `Client` (client.py lines 42-46):
`_prev_token` (initially `None`) and the current gql client/session pair
(initially absent). -/
structure SessionState where
  prevToken : Option String
  session : Option GqlSession
  deriving DecidableEq, Repr

/-- Observable side effects of one session resolution. -/
inductive SessEvent where
  | closeOld
  | createNew
  deriving DecidableEq, Repr

/-- The default-header dict built by `SyncClient._get_gql_session`
(client.py lines 105-109): `Accept` always, `Authorization` only when the
token is truthy (non-empty). -/
def sessionHeadersSync (token : String) : List (String × String) :=
  [("Accept", "application/vnd.github+json")] ++
    (if pyTruthyStr token = true then [("Authorization", "Bearer " ++ token)] else [])

/-- `SyncClient._get_gql_session` (client.py lines 85-117), with the token
returned by `auth.get_token()` passed in explicitly. When the token equals
`_prev_token` the existing session is returned untouched (the
`assert isinstance(...)` fails if there is none). Otherwise `_prev_token`
is set, the old gql client (present exactly when a session is) is closed,
and a new transport/client/session is built with the fresh headers. -/
def resolveSessionSync (s : SessionState) (token : String) :
    Except PyError (GqlSession × SessionState × List SessEvent) :=
  if s.prevToken = some token then
    match s.session with
    | some sess => Except.ok (sess, s, [])
    | none => Except.error PyError.assertionError
  else
    let sess : GqlSession := { token := token, headers := sessionHeadersSync token }
    Except.ok (sess, { prevToken := some token, session := some sess },
      (if s.session.isSome then [SessEvent.closeOld] else []) ++ [SessEvent.createNew])

/-- The default-header dict built by `AsyncClient._get_gql_session`
(client.py lines 245-249). -/
def sessionHeadersAsync (token : String) : List (String × String) :=
  [("Accept", "application/vnd.github+json")] ++
    (if pyTruthyStr token = true then [("Authorization", "Bearer " ++ token)] else [])

/-- `AsyncClient._get_gql_session` (client.py lines 226-257), transcribed
from its own body: same check-then-swap on `_prev_token`, with the AIOHTTP
transport in place of the requests one. -/
def resolveSessionAsync (s : SessionState) (token : String) :
    Except PyError (GqlSession × SessionState × List SessEvent) :=
  if s.prevToken = some token then
    match s.session with
    | some sess => Except.ok (sess, s, [])
    | none => Except.error PyError.assertionError
  else
    let sess : GqlSession := { token := token, headers := sessionHeadersAsync token }
    Except.ok (sess, { prevToken := some token, session := some sess },
      (if s.session.isSome then [SessEvent.closeOld] else []) ++ [SessEvent.createNew])

/-- Python `query.lstrip('/')`: drop every leading `/`. -/
def pyLstripSlash (s : String) : String :=
  String.mk (s.data.dropWhile (fun c => c == '/'))

/-- The URL built by `SyncClient.request` (client.py line 137):
`f"{GITHUB_API_ENDPOINT}/{query.lstrip('/')}"`. -/
def requestUrlSync (query : String) : String :=
  GITHUB_API_ENDPOINT ++ "/" ++ pyLstripSlash query

/-- The URL built by `AsyncClient.request` (client.py line 277). -/
def requestUrlAsync (query : String) : String :=
  GITHUB_API_ENDPOINT ++ "/" ++ pyLstripSlash query

/-- An outbound HTTP request as handed to the underlying
`requests.Session.request` / `aiohttp.ClientSession.request`: method, URL,
the session's default headers, and the encoded body passed via `data=`. -/
structure PyRequest where
  method : String
  url : String
  headers : List (String × String)
  body : Option String
  deriving DecidableEq, Repr

/-- `SyncClient.request` (client.py lines 125-141): build the URL, resolve
the session (which may rebuild it), and issue the request on the session's
`requests.Session`, which applies the session's default headers. -/
def requestSync (s : SessionState) (token : String) (method query : String)
    (body : Option String) : Except PyError (PyRequest × SessionState × List SessEvent) :=
  let url := requestUrlSync query
  match resolveSessionSync s token with
  | Except.error e => Except.error e
  | Except.ok (sess, s2, evs) =>
    Except.ok ({ method := method, url := url, headers := sess.headers, body := body }, s2, evs)

/-- `AsyncClient.request` (client.py lines 265-279): same steps on the
AIOHTTP session. -/
def requestAsync (s : SessionState) (token : String) (method query : String)
    (body : Option String) : Except PyError (PyRequest × SessionState × List SessEvent) :=
  let url := requestUrlAsync query
  match resolveSessionAsync s token with
  | Except.error e => Except.error e
  | Except.ok (sess, s2, evs) =>
    Except.ok ({ method := method, url := url, headers := sess.headers, body := body }, s2, evs)

/-- Escaping applied by `json.dumps` to the characters the library ever
sends (quotes and backslashes). -/
def jsonEscape (s : String) : String :=
  String.mk ((s.data.map (fun c => if c == '"' || c == '\\' then ['\\', c] else [c])).flatten)

mutual

/-- `json.dumps` with its default separators, used identically by both
clients to encode request bodies. -/
def jsonDumps : Json → String
  | Json.null => "null"
  | Json.bool b => if b then "true" else "false"
  | Json.num n => toString n
  | Json.str s => "\"" ++ jsonEscape s ++ "\""
  | Json.arr l => "[" ++ String.intercalate ", " (jsonDumpsList l) ++ "]"
  | Json.obj l => "\x7b" ++ String.intercalate ", " (jsonDumpsObj l) ++ "\x7d"

/-- Encodings of the elements of a JSON array, in order. -/
def jsonDumpsList : List Json → List String
  | [] => []
  | x :: xs => jsonDumps x :: jsonDumpsList xs

/-- Encodings of the `"key": value` entries of a JSON object, in order. -/
def jsonDumpsObj : List (String × Json) → List String
  | [] => []
  | (k, v) :: xs => ("\"" ++ jsonEscape k ++ "\": " ++ jsonDumps v) :: jsonDumpsObj xs

end

/-- The `RequestData` argument (`Optional[Dict]`, default `None`) as the
JSON value `json.dumps` receives. -/
def jsonOfRequestData : Option (List (String × Json)) → Json
  | some fields => Json.obj fields
  | none => Json.null

/-- `SyncClient.post` (client.py lines 154-164):
`request("POST", query, data=json.dumps(data))`. -/
def postSync (s : SessionState) (token : String) (query : String)
    (data : Option (List (String × Json))) :
    Except PyError (PyRequest × SessionState × List SessEvent) :=
  requestSync s token "POST" query (some (jsonDumps (jsonOfRequestData data)))

/-- `AsyncClient.post` (client.py lines 292-302). -/
def postAsync (s : SessionState) (token : String) (query : String)
    (data : Option (List (String × Json))) :
    Except PyError (PyRequest × SessionState × List SessEvent) :=
  requestAsync s token "POST" query (some (jsonDumps (jsonOfRequestData data)))

/-- `SyncClient.get` (client.py lines 143-152): `request("GET", query)`,
no body. -/
def getSync (s : SessionState) (token : String) (query : String) :
    Except PyError (PyRequest × SessionState × List SessEvent) :=
  requestSync s token "GET" query none

/-- `AsyncClient.get` (client.py lines 281-290). -/
def getAsync (s : SessionState) (token : String) (query : String) :
    Except PyError (PyRequest × SessionState × List SessEvent) :=
  requestAsync s token "GET" query none

/-! ## Invariants and concrete fixtures -/

/-- The session-cache states reachable by a `Client`: before the first
resolution both fields are unset; afterwards `_prev_token` records exactly
the token the live session was built with. -/
def SessionWF (s : SessionState) : Prop :=
  match s.prevToken with
  | none => s.session = none
  | some t => ∃ sess, s.session = some sess ∧ sess.token = t

/-- Signing oracle used for concrete evaluations: deterministic in the
payload, as `jwt.encode` with a fixed key is. -/
def c4Sign : JwtPayload → Except Unit String :=
  fun p => Except.ok ("jwt" ++ toString p.iat)

/-- Network oracle used for concrete evaluations of the installation flow. -/
def c5Env : InstEnv :=
  { listInstallations := Except.ok [("octo", "9")]
    mint := fun t => Except.ok ("itok" ++ toString t) }

/-- Network oracle whose mint succeeds up to time 1000, fails at time 5000,
and succeeds again afterwards. -/
def c2FailEnv : InstEnv :=
  { listInstallations := Except.ok [("mozilla", "42")]
    mint := fun t =>
      if t ≤ 1000 then Except.ok ("tok" ++ toString t)
      else if t = 5000 then Except.error ()
      else Except.ok "fresh" }

/-- A live sync/async session state bound to token `"a"`. -/
def c6State : SessionState :=
  { prevToken := some "a"
    session := some { token := "a", headers := sessionHeadersSync "a" } }

/-- Response with exhausted quota and a reset epoch of 130. -/
def c8RespReset : PyResponse :=
  { status_code := 403
    headers := [("x-ratelimit-remaining", "0"), ("x-ratelimit-reset", "130")]
    body := none }

/-- Response carrying only a `retry-after` header. -/
def c8RespRetry : PyResponse :=
  { status_code := 429, headers := [("retry-after", "15")], body := none }

/-- Response with no rate-limit headers at all. -/
def c8RespBare : PyResponse :=
  { status_code := 403, headers := [], body := none }

/-! ## Theorems -/

/-- C1: for a REST-shaped 403 response, `is_rate_limited` does return true
when `x-ratelimit-remaining` is `"0"`; but on
`{status: 403, headers: {}, body: {"message": "forbidden"}}` it returns
true as well, where the claim requires false. Line 43 of rate_limit.py
reads `if "rate limit exceeded" or "too many requests" in message:`, which
Python parses as `("rate limit exceeded") or (...)`; the left operand is a
truthy string literal, so every REST 403/429 response whose body decodes
to a dict with a string (or absent) message is classified as rate-limited
regardless of its message. -/
theorem c1_rest_rate_limit_eval :
    is_rate_limited { status_code := 403,
                      headers := [("x-ratelimit-remaining", "0")],
                      body := none } = Except.ok true ∧
    is_rate_limited { status_code := 403, headers := [],
                      body := some (Json.obj [("message", Json.str "forbidden")]) }
      = Except.ok true := by
  exact ⟨rfl, rfl⟩

/-- C2: a failed token regeneration does not leave the cache intact for a
clean retry — it exhausts the async generator. Concretely: with a cached
installation token `"tok0"` expiring at 3600, a `get_token` at time 5000
whose mint fails propagates the HTTP error and leaves the generator
`dead`; the next call at 5100 raises `StopAsyncIteration` and issues no
network call at all, even though the mint oracle succeeds at 5100. The
same happens to `AppAuth` when re-signing fails. -/
theorem c2_failed_regen_kills_generator :
    (instGetToken c2FailEnv "mozilla" none (InstGenState.primed "42" "tok0" 3600) 5000
      = (Except.error PyError.httpError, InstGenState.dead, [NetCall.mintToken "42" []])) ∧
    (instGetToken c2FailEnv "mozilla" none InstGenState.dead 5100
      = (Except.error PyError.stopAsyncIteration, InstGenState.dead, [])) ∧
    c2FailEnv.mint 5100 = Except.ok "fresh" ∧
    (appAuthGetToken (fun _ => Except.error ()) 1
        (AppAuthGenState.primed { iat := 0, exp := 540, iss := 1 } "jwt0") 481
      = (Except.error PyError.signError, AppAuthGenState.dead)) ∧
    (appAuthGetToken c4Sign 1 AppAuthGenState.dead 482
      = (Except.error PyError.stopAsyncIteration, AppAuthGenState.dead)) := by
  refine ⟨?_, rfl, rfl, ?_, rfl⟩ <;> rfl

/-- C3: the installation-token mint request body carries exactly the
configured repository list under `"repositories"` when that list is
non-empty, and is the empty object when no list is configured or the
configured list is empty. -/
theorem c3_mint_request_body (repos : List String) (h : repos ≠ []) :
    mintRequestBody (some repos) = [("repositories", Json.arr (repos.map Json.str))] ∧
    mintRequestBody none = [] ∧
    mintRequestBody (some []) = [] := by
  refine ⟨?_, rfl, rfl⟩
  cases repos with
  | nil => exact absurd rfl h
  | cons a as => simp [mintRequestBody, pyTruthyOptList]

/-- C3 witness: a singleton repository list is sent in the body; no list
sends the empty object. -/
theorem c3_mint_request_body_witness :
    mintRequestBody (some ["a"]) = [("repositories", Json.arr [Json.str "a"])] ∧
    mintRequestBody none = [] :=
  ⟨(c3_mint_request_body ["a"] (List.cons_ne_nil "a" [])).1,
   (c3_mint_request_body ["a"] (List.cons_ne_nil "a" [])).2.1⟩

/-- C4: for an `AppAuth` whose cached JWT has `iat = T`, `exp = T + 540`,
a `get_token` at time `now` with `T + 540 - now ≥ 60` returns the cached
token and leaves the cache unchanged, while a call with
`T + 540 - now < 60` re-signs and returns a token whose payload has
`iat = now` and `exp = now + 540`. -/
theorem c4_app_jwt_refresh (sign : JwtPayload → Except Unit String) (appId T now : Int)
    (token : String) :
    (T + 540 - now ≥ 60 →
      appAuthGetToken sign appId
          (AppAuthGenState.primed { iat := T, exp := T + 540, iss := appId } token) now
        = (Except.ok token,
            AppAuthGenState.primed { iat := T, exp := T + 540, iss := appId } token)) ∧
    (T + 540 - now < 60 → ∀ token2,
      sign { iat := now, exp := now + 540, iss := appId } = Except.ok token2 →
      appAuthGetToken sign appId
          (AppAuthGenState.primed { iat := T, exp := T + 540, iss := appId } token) now
        = (Except.ok token2,
            AppAuthGenState.primed { iat := now, exp := now + 540, iss := appId } token2)) := by
  constructor
  · intro h
    simp only [appAuthGetToken]
    rw [if_neg (by omega)]
  · intro h token2 hsign
    simp only [appAuthGetToken]
    rw [if_pos (by omega)]
    simp only [hsign]

/-- C4 witness: with the refresh window `[T, T+540] = [0, 540]`, a call at
479 (61 s before expiry) returns the cached token, and a call at 481
(59 s before expiry) returns a re-signed token for the window
`[481, 1021]`. -/
theorem c4_app_jwt_refresh_witness :
    (appAuthGetToken c4Sign 7
        (AppAuthGenState.primed { iat := 0, exp := 540, iss := 7 } "jwt0") 479
      = (Except.ok "jwt0",
          AppAuthGenState.primed { iat := 0, exp := 540, iss := 7 } "jwt0")) ∧
    (appAuthGetToken c4Sign 7
        (AppAuthGenState.primed { iat := 0, exp := 540, iss := 7 } "jwt0") 481
      = (Except.ok "jwt481",
          AppAuthGenState.primed { iat := 481, exp := 1021, iss := 7 } "jwt481")) :=
  ⟨(c4_app_jwt_refresh c4Sign 7 0 479 "jwt0").1 (by omega),
   (c4_app_jwt_refresh c4Sign 7 0 481 "jwt0").2 (by omega) "jwt481" rfl⟩

/-- C5: the installation id is resolved by the network exactly once, on
the first `get_token` call; afterwards a call with `exp - now ≥ 60`
returns the cached token with no network traffic, a call with
`exp - now < 60` repeats only the mint (never the lookup) and sets the
new expiry to `now + 3600`, preserving the cached installation id; and an
exhausted generator issues no calls at all. -/
theorem c5_installation_token_cache (env : InstEnv) (owner : String)
    (repos : Option (List String)) (now : Int) :
    (∀ insts instId token, env.listInstallations = Except.ok insts →
      findInstallationId owner insts = Except.ok instId →
      env.mint now = Except.ok token →
      instGetToken env owner repos InstGenState.start now
        = (Except.ok token, InstGenState.primed instId token (now + 3600),
            [NetCall.lookupInstallations, NetCall.mintToken instId (mintRequestBody repos)])) ∧
    (∀ instId token exp, exp - now ≥ 60 →
      instGetToken env owner repos (InstGenState.primed instId token exp) now
        = (Except.ok token, InstGenState.primed instId token exp, [])) ∧
    (∀ instId token exp token2, exp - now < 60 → env.mint now = Except.ok token2 →
      instGetToken env owner repos (InstGenState.primed instId token exp) now
        = (Except.ok token2, InstGenState.primed instId token2 (now + 3600),
            [NetCall.mintToken instId (mintRequestBody repos)])) ∧
    instGetToken env owner repos InstGenState.dead now
      = (Except.error PyError.stopAsyncIteration, InstGenState.dead, []) := by
  refine ⟨?_, ?_, ?_, rfl⟩
  · intro insts instId token hlist hfind hmint
    simp only [instGetToken, hlist, hfind, hmint]
  · intro instId token exp h
    simp only [instGetToken]
    rw [if_neg (by omega)]
  · intro instId token exp token2 h hmint
    simp only [instGetToken]
    rw [if_pos (by omega)]
    simp only [hmint]

/-- C5 witness: first call at time 0 does one lookup and one mint and
caches expiry 3600; a call at 3539 (61 s early) returns the cached token
with no traffic; a call at 3541 (59 s early) re-mints without looking the
id up again and caches expiry 3541 + 3600. -/
theorem c5_installation_token_cache_witness :
    (instGetToken c5Env "octo" none InstGenState.start 0
      = (Except.ok "itok0", InstGenState.primed "9" "itok0" 3600,
          [NetCall.lookupInstallations, NetCall.mintToken "9" (mintRequestBody none)])) ∧
    (instGetToken c5Env "octo" none (InstGenState.primed "9" "itok0" 3600) 3539
      = (Except.ok "itok0", InstGenState.primed "9" "itok0" 3600, [])) ∧
    (instGetToken c5Env "octo" none (InstGenState.primed "9" "itok0" 3600) 3541
      = (Except.ok "itok3541", InstGenState.primed "9" "itok3541" 7141,
          [NetCall.mintToken "9" (mintRequestBody none)])) :=
  ⟨(c5_installation_token_cache c5Env "octo" none 0).1 [("octo", "9")] "9" "itok0" rfl rfl rfl,
   (c5_installation_token_cache c5Env "octo" none 3539).2.1 "9" "itok0" 3600 (by omega),
   (c5_installation_token_cache c5Env "octo" none 3541).2.2.1 "9" "itok0" 3600 "itok3541"
     (by omega) rfl⟩

/-- C6: under the reachable-state invariant, session resolution (sync and
async alike) returns the existing session unchanged, with no close or
create, exactly when a session exists and its bound token equals the token
just retrieved; in every other case the old session (if any) is closed and
one new session bound to the retrieved token is created. -/
theorem c6_session_reuse_iff (s : SessionState) (token : String) (hwf : SessionWF s) :
    ((∃ sess, s.session = some sess ∧ sess.token = token) →
      ∃ sess, s.session = some sess ∧
        resolveSessionSync s token = Except.ok (sess, s, []) ∧
        resolveSessionAsync s token = Except.ok (sess, s, [])) ∧
    ((¬ ∃ sess, s.session = some sess ∧ sess.token = token) →
      ∃ sess2 : GqlSession, sess2.token = token ∧
        resolveSessionSync s token
          = Except.ok (sess2, { prevToken := some token, session := some sess2 },
              (if s.session.isSome then [SessEvent.closeOld] else [])
                ++ [SessEvent.createNew]) ∧
        resolveSessionAsync s token
          = Except.ok (sess2, { prevToken := some token, session := some sess2 },
              (if s.session.isSome then [SessEvent.closeOld] else [])
                ++ [SessEvent.createNew])) := by
  constructor
  · rintro ⟨sess, hsess, htok⟩
    have hprev : s.prevToken = some token := by
      unfold SessionWF at hwf
      cases hp : s.prevToken with
      | none => rw [hp] at hwf; rw [hwf] at hsess; exact absurd hsess (by simp)
      | some t =>
        rw [hp] at hwf
        obtain ⟨sess2, hsess2, htok2⟩ := hwf
        rw [hsess] at hsess2
        cases hsess2
        rw [htok] at htok2
        rw [htok2]
    refine ⟨sess, hsess, ?_, ?_⟩ <;>
      · simp only [resolveSessionSync, resolveSessionAsync]
        rw [if_pos hprev, hsess]
  · intro hno
    have hprev : s.prevToken ≠ some token := by
      intro hp
      unfold SessionWF at hwf
      rw [hp] at hwf
      exact hno hwf
    refine ⟨{ token := token, headers := sessionHeadersSync token }, rfl, ?_, ?_⟩
    · simp only [resolveSessionSync]
      rw [if_neg hprev]
    · simp only [resolveSessionAsync]
      rw [if_neg hprev]
      rfl

/-- C6 witness: with a live session bound to `"a"`, retrieving `"a"` again
reuses it unchanged, and retrieving `"b"` closes it and builds a fresh
session bound to `"b"`. -/
theorem c6_session_reuse_iff_witness :
    (∃ sess, c6State.session = some sess ∧
      resolveSessionSync c6State "a" = Except.ok (sess, c6State, []) ∧
      resolveSessionAsync c6State "a" = Except.ok (sess, c6State, [])) ∧
    (∃ sess2 : GqlSession, sess2.token = "b" ∧
      resolveSessionSync c6State "b"
        = Except.ok (sess2, { prevToken := some "b", session := some sess2 },
            (if c6State.session.isSome then [SessEvent.closeOld] else [])
              ++ [SessEvent.createNew]) ∧
      resolveSessionAsync c6State "b"
        = Except.ok (sess2, { prevToken := some "b", session := some sess2 },
            (if c6State.session.isSome then [SessEvent.closeOld] else [])
              ++ [SessEvent.createNew])) :=
  ⟨(c6_session_reuse_iff c6State "a"
      ⟨{ token := "a", headers := sessionHeadersSync "a" }, rfl, rfl⟩).1
      ⟨{ token := "a", headers := sessionHeadersSync "a" }, rfl, rfl⟩,
   (c6_session_reuse_iff c6State "b"
      ⟨{ token := "a", headers := sessionHeadersSync "a" }, rfl, rfl⟩).2
      (by rintro ⟨sess, hsess, htok⟩; cases hsess; exact absurd htok (by decide))⟩

/-- C7: every session newly built by either client carries exactly the
`Accept` header plus, precisely when the token is non-empty, an
`Authorization: Bearer` header; the anonymous credential returns the empty
token, so its sessions carry no `Authorization` header. -/
theorem c7_new_session_headers (s : SessionState) (token : String)
    (h : s.prevToken ≠ some token) :
    (∃ s2 evs, resolveSessionSync s token
      = Except.ok ({ token := token, headers := sessionHeadersSync token }, s2, evs)) ∧
    (∃ s2 evs, resolveSessionAsync s token
      = Except.ok ({ token := token, headers := sessionHeadersAsync token }, s2, evs)) ∧
    (token ≠ "" →
      sessionHeadersSync token
        = [("Accept", "application/vnd.github+json"),
           ("Authorization", "Bearer " ++ token)] ∧
      sessionHeadersAsync token
        = [("Accept", "application/vnd.github+json"),
           ("Authorization", "Bearer " ++ token)]) ∧
    (token = "" →
      sessionHeadersSync token = [("Accept", "application/vnd.github+json")] ∧
      sessionHeadersAsync token = [("Accept", "application/vnd.github+json")]) ∧
    publicAuthGetToken = "" := by
  refine ⟨?_, ?_, ?_, ?_, rfl⟩
  · exact ⟨_, _, by simp only [resolveSessionSync]; rw [if_neg h]⟩
  · exact ⟨_, _, by simp only [resolveSessionAsync]; rw [if_neg h]⟩
  · intro hne
    constructor <;> simp [sessionHeadersSync, sessionHeadersAsync, pyTruthyStr, hne]
  · intro he
    subst he
    constructor <;> rfl

/-- C7 witness: a fresh client building a session for token `"abc"` sets
both headers, and for the anonymous token `""` sets only `Accept`. -/
theorem c7_new_session_headers_witness :
    (∃ s2 evs, resolveSessionSync { prevToken := none, session := none } "abc"
      = Except.ok ({ token := "abc", headers := sessionHeadersSync "abc" }, s2, evs)) ∧
    sessionHeadersSync "abc"
      = [("Accept", "application/vnd.github+json"), ("Authorization", "Bearer abc")] ∧
    sessionHeadersSync "" = [("Accept", "application/vnd.github+json")] ∧
    publicAuthGetToken = "" :=
  ⟨(c7_new_session_headers { prevToken := none, session := none } "abc" (by simp)).1,
   ((c7_new_session_headers { prevToken := none, session := none } "abc" (by simp)).2.2.1
      (by simp)).1,
   ((c7_new_session_headers { prevToken := none, session := none } "" (by simp)).2.2.2.1
      rfl).1,
   rfl⟩

/-- A header value on which Python `int()` succeeds is in particular a
non-empty, hence truthy, string. -/
theorem pyInt_ok_truthy (r : String) (n : Int) (h : pyInt r = Except.ok n) :
    pyTruthyStr r = true := by
  by_cases hr : r = ""
  · subst hr
    have he : pyInt "" = Except.error PyError.valueError := rfl
    rw [he] at h
    simp at h
  · simp [pyTruthyStr, hr]

/-- C8: `get_wait_time` returns `max 0 (reset - now)` when the quota
header reads `"0"` and the reset header carries an integer; otherwise the
`retry-after` value verbatim when that header carries an integer;
otherwise the fallback `60 + 20 * (attempt - 1)` with the attempt floored
at 1. -/
theorem c8_wait_time (resp : PyResponse) (attempt now : Int) :
    (∀ r n, headersGet resp.headers "x-ratelimit-remaining" = some "0" →
      headersGet resp.headers "x-ratelimit-reset" = some r →
      pyInt r = Except.ok n →
      get_wait_time resp attempt now = Except.ok (max 0 (n - now))) ∧
    (∀ r n, ¬(headersGet resp.headers "x-ratelimit-remaining" = some "0"
        ∧ pyTruthyOptStr (headersGet resp.headers "x-ratelimit-reset") = true) →
      headersGet resp.headers "retry-after" = some r →
      pyInt r = Except.ok n →
      get_wait_time resp attempt now = Except.ok n) ∧
    (¬(headersGet resp.headers "x-ratelimit-remaining" = some "0"
        ∧ pyTruthyOptStr (headersGet resp.headers "x-ratelimit-reset") = true) →
      pyTruthyOptStr (headersGet resp.headers "retry-after") = false →
      get_wait_time resp attempt now = Except.ok (60 + 20 * (max attempt 1 - 1))) := by
  refine ⟨?_, ?_, ?_⟩
  · intro r n h0 hr hn
    have ht : pyTruthyStr r = true := pyInt_ok_truthy r n hn
    simp only [get_wait_time]
    rw [if_pos ⟨h0, by rw [hr]; simpa [pyTruthyOptStr] using ht⟩, hr]
    simp [hn]
  · intro r n hno hr hn
    have ht : pyTruthyStr r = true := pyInt_ok_truthy r n hn
    simp only [get_wait_time]
    rw [if_neg hno, hr, if_pos (show pyTruthyOptStr (some r) = true by
      simpa [pyTruthyOptStr] using ht)]
    simp [hn]
  · intro hno hf
    simp only [get_wait_time]
    rw [if_neg hno, if_neg (by simp [hf])]

/-- C8 witness: with quota `"0"` and reset 130 at `now = 100` the wait is
30; with only `retry-after: 15` it is 15; with neither header it is 60 on
attempt 1 and 100 on attempt 3. -/
theorem c8_wait_time_witness :
    get_wait_time c8RespReset 1 100 = Except.ok 30 ∧
    get_wait_time c8RespRetry 1 100 = Except.ok 15 ∧
    get_wait_time c8RespBare 1 100 = Except.ok 60 ∧
    get_wait_time c8RespBare 3 100 = Except.ok 100 := by
  refine ⟨?_, ?_, ?_, ?_⟩
  · rw [(c8_wait_time c8RespReset 1 100).1 "130" 130 rfl rfl rfl]
    simp only [Except.ok.injEq]
    omega
  · rw [(c8_wait_time c8RespRetry 1 100).2.1 "15" 15 (by decide) rfl rfl]
  · rw [(c8_wait_time c8RespBare 1 100).2.2 (by decide) (by decide)]
    simp only [Except.ok.injEq]
    omega
  · rw [(c8_wait_time c8RespBare 3 100).2.2 (by decide) (by decide)]
    simp only [Except.ok.injEq]
    omega

/-- C9: the blocking and non-blocking clients build identical requests —
URL, header set and encoded body — and make identical session
reuse/close/create decisions, for every state, token, method, path and
body. -/
theorem c9_sync_async_equal (s : SessionState) (token method query : String)
    (body : Option String) (data : Option (List (String × Json))) :
    requestSync s token method query body = requestAsync s token method query body ∧
    resolveSessionSync s token = resolveSessionAsync s token ∧
    postSync s token query data = postAsync s token query data ∧
    getSync s token query = getAsync s token query :=
  ⟨rfl, rfl, rfl, rfl⟩

/-- C10: both clients target the fixed API origin followed by `/` and the
path with every leading `/` stripped, so a path and the same path with a
leading `/` prepended produce the same URL and indeed the same request. -/
theorem c10_url_leading_slash (s : SessionState) (token method p : String)
    (body : Option String) :
    requestUrlSync p = GITHUB_API_ENDPOINT ++ "/" ++ pyLstripSlash p ∧
    requestUrlAsync p = GITHUB_API_ENDPOINT ++ "/" ++ pyLstripSlash p ∧
    requestUrlSync ("/" ++ p) = requestUrlSync p ∧
    requestUrlAsync ("/" ++ p) = requestUrlAsync p ∧
    requestSync s token method ("/" ++ p) body = requestSync s token method p body ∧
    requestAsync s token method ("/" ++ p) body = requestAsync s token method p body :=
  ⟨rfl, rfl, rfl, rfl, rfl, rfl⟩

/-- The empty session cache of a fresh client is a reachable state. -/
theorem sessionWF_initial : SessionWF { prevToken := none, session := none } := rfl

/-- Session resolution preserves the reachable-state invariant. -/
theorem sessionWF_preserved (s : SessionState) (token : String) (sess : GqlSession)
    (s2 : SessionState) (evs : List SessEvent) (hwf : SessionWF s)
    (h : resolveSessionSync s token = Except.ok (sess, s2, evs)) : SessionWF s2 := by
  by_cases hp : s.prevToken = some token
  · simp only [resolveSessionSync, if_pos hp] at h
    cases hs : s.session with
    | none => rw [hs] at h; simp at h
    | some sess0 =>
      rw [hs] at h
      simp only [Except.ok.injEq, Prod.mk.injEq] at h
      obtain ⟨-, h2, -⟩ := h
      rw [← h2]
      exact hwf
  · simp only [resolveSessionSync, if_neg hp] at h
    simp only [Except.ok.injEq, Prod.mk.injEq] at h
    obtain ⟨-, h2, -⟩ := h
    rw [← h2]
    exact ⟨_, rfl, rfl⟩

end SimpleGithub
